import Mathlib

/-!
# Transactional funds transfer (`sqlc/store.go`)

A shallow embedding of `Store.execTx` and `Store.TransferTx`.

* Go `int64` values are `Int`s; every arithmetic operation the source performs
  is followed by an explicit two's-complement wrap (`wrap64`).
* Go `error` values are `Option GoError` (`none` is `nil`).
* The closure passed to `execTx` mutates the captured `result`; here it is a
  state-passing function over the captured value.
* The generated data-access layer (`Queries`, `CreateTransfer`, ...) and the
  `database/sql` handle are not part of the two source files; they are modelled
  from the specification, with every external failure an explicit input (`Env`).
* The `fmt.Println` diagnostics and the `txtKey` context value have no effect on
  the result and are left out.
-/

namespace db

/-! ## Machine integers and errors -/

/-- Two's-complement wrap-around of a mathematical integer into Go's `int64`. -/
def wrap64 (x : Int) : Int := (x + 2 ^ 63) % 2 ^ 64 - 2 ^ 63

/-- The value lies in the range of Go's `int64`. -/
def isInt64 (x : Int) : Prop := -(2 ^ 63) ≤ x ∧ x < 2 ^ 63

instance (x : Int) : Decidable (isInt64 x) := by
  unfold isInt64; exact inferInstance

/-- Go's `a - b` on `int64`. -/
def sub64 (a b : Int) : Int := wrap64 (a - b)

/-- Go's `a + b` on `int64`. -/
def add64 (a b : Int) : Int := wrap64 (a + b)

/-- Go's unary `-a` on `int64`. -/
def neg64 (a : Int) : Int := wrap64 (-a)

/-- A non-nil Go `error`, identified by the text its `Error()` method returns. -/
structure GoError where
  msg : String
  deriving DecidableEq, Repr

/-- The error built by `fmt.Errorf("tx err: %v, rb err: %v", err, rbErr)`
(store.go line 60): `%v` prints each error's message. -/
def fmt.Errorf (err rbErr : GoError) : GoError :=
  ⟨"tx err: " ++ err.msg ++ ", rb err: " ++ rbErr.msg⟩

/-- Modelled from the spec: the error of a read or update that finds no row
(`sql.ErrNoRows`), raised when the account identifier does not exist. -/
def ErrNoRows : GoError := ⟨"sql: no rows in result set"⟩

/-- Modelled from the spec: the error of a create operation that references an
account identifier that does not exist. -/
def ErrForeignKey : GoError := ⟨"pq: violates foreign key constraint"⟩

/-! ## Records (section 3 of the specification) -/

/-- Modelled from the spec: the `Account` record (identifier and balance; the
creation timestamp is never read or written by the transfer). -/
structure Account where
  ID : Int
  Balance : Int
  deriving DecidableEq, Repr, Inhabited

/-- Modelled from the spec: the `Entry` record. -/
structure Entry where
  ID : Int
  AccountID : Int
  Amount : Int
  deriving DecidableEq, Repr, Inhabited

/-- Modelled from the spec: the `Transfer` record. -/
structure Transfer where
  ID : Int
  FromAccountID : Int
  ToAccountID : Int
  Amount : Int
  deriving DecidableEq, Repr, Inhabited

/-- Modelled from the spec: argument of `createTransfer(from, to, amount)`. -/
structure CreateTransferParams where
  FromAccountID : Int
  ToAccountID : Int
  Amount : Int
  deriving DecidableEq, Repr

/-- Modelled from the spec: argument of `createEntry(accountID, signedAmount)`. -/
structure CreateEntryParams where
  AccountID : Int
  Amount : Int
  deriving DecidableEq, Repr

/-- Modelled from the spec: argument of `updateAccountBalance(accountID, newBalance)`. -/
structure UpdateAccountParams where
  ID : Int
  Balance : Int
  deriving DecidableEq, Repr

/-- `TransferTxParams` (store.go lines 68-72). -/
structure TransferTxParams where
  FromAccountID : Int
  ToAccountID : Int
  Amount : Int
  deriving DecidableEq, Repr

/-- `TransferTxResult` (store.go lines 74-80). -/
structure TransferTxResult where
  Transfer : Transfer
  FromAccount : Account
  ToAccount : Account
  FromEntry : Entry
  ToEntry : Entry
  deriving DecidableEq, Repr, Inhabited

/-! ## The store and its data-access layer -/

/-- Modelled from the spec: the persisted state, three tables and the two
identifier sequences of the created records. -/
structure DB where
  accounts : List Account
  entries : List Entry
  transfers : List Transfer
  nextEntryID : Int
  nextTransferID : Int
  deriving DecidableEq, Repr

/-- Modelled from the spec: plain read `getAccount(id)`. -/
def DB.getAccount (d : DB) (id : Int) : Option Account :=
  d.accounts.find? (fun a => decide (a.ID = id))

/-- Modelled from the spec: plain read `getEntry(id)`. -/
def DB.getEntry (d : DB) (id : Int) : Option Entry :=
  d.entries.find? (fun e => decide (e.ID = id))

/-- Modelled from the spec: plain read `getTransfer(id)`. -/
def DB.getTransfer (d : DB) (id : Int) : Option Transfer :=
  d.transfers.find? (fun t => decide (t.ID = id))

/-- The four data-access calls `TransferTx` issues, with their arguments. -/
inductive Call where
  | CreateTransfer (arg : CreateTransferParams)
  | CreateEntry (arg : CreateEntryParams)
  | GetAccountForUpdate (id : Int)
  | UpdateAccount (arg : UpdateAccountParams)
  deriving DecidableEq, Repr

/-- What a data-access call returned. -/
inductive Reply where
  | transfer (t : Transfer)
  | entry (e : Entry)
  | account (a : Account)
  | error (e : GoError)
  deriving DecidableEq, Repr

/-- One issued data-access call together with what it returned. -/
structure Step where
  call : Call
  reply : Reply
  deriving DecidableEq, Repr

/-- The logged call succeeded (it did not return an error). -/
def Step.ok (s : Step) : Bool :=
  match s.reply with
  | .error _ => false
  | _ => true

/-- Transaction-control calls on the database handle. -/
inductive TxOp where
  | Begin
  | Commit
  | Rollback
  deriving DecidableEq, Repr

/-- The behaviour of the outside world during one call of `execTx`: whether
`BeginTx`, `Commit` and `Rollback` fail, and which data-access call of the
transaction (numbered from 0 in issue order) fails for an external reason
(lock-wait timeout, connection loss, ...). -/
structure Env where
  beginErr : Option GoError
  commitErr : Option GoError
  rollbackErr : Option GoError
  queryErr : Nat → Option GoError

/-- The world in which nothing fails for an external reason. -/
def Env.ok : Env := ⟨none, none, none, fun _ => none⟩

/-- Modelled from the spec: an open unit-of-work (`*sql.Tx`), holding the
transaction's own view of the data, the external failures still to come and the
data-access calls issued so far (oldest first). -/
structure Tx where
  data : DB
  fault : Nat → Option GoError
  log : List Step

/-- Modelled from the spec: the transaction-scoped data-access layer
(`*Queries`), a wrapper around the handle it was built on. -/
structure Queries where
  db : Tx

/-- `New(tx)`: the data-access layer bound to a transaction. -/
def New (tx : Tx) : Queries := ⟨tx⟩

/-- Modelled from the spec: the store appends a transfer row and advances the
identifier sequence. -/
def DB.insertTransfer (d : DB) (t : Transfer) : DB :=
  { d with transfers := d.transfers ++ [t], nextTransferID := d.nextTransferID + 1 }

/-- Modelled from the spec: the store appends an entry row and advances the
identifier sequence. -/
def DB.insertEntry (d : DB) (e : Entry) : DB :=
  { d with entries := d.entries ++ [e], nextEntryID := d.nextEntryID + 1 }

/-- Modelled from the spec: the store writes the balance of the row with the
given identifier. -/
def DB.setBalance (d : DB) (id bal : Int) : DB :=
  { d with
    accounts := List.map (fun x => if x.ID = id then { x with Balance := bal } else x) d.accounts }

/-- Appends a failed call to the transaction's log. -/
def Tx.failed (tx : Tx) (c : Call) (e : GoError) : Tx :=
  { tx with log := tx.log ++ [⟨c, .error e⟩] }

/-- Appends a successful call to the transaction's log and installs the data it
left behind. -/
def Tx.done (tx : Tx) (d : DB) (c : Call) (r : Reply) : Tx :=
  { tx with data := d, log := tx.log ++ [⟨c, r⟩] }

/-- Modelled from the spec: `createTransfer(from, to, amount) -> Transfer`.
Fails when an external failure is due, or when one of the two accounts does not
exist; otherwise appends a row with a fresh identifier. On failure the returned
record is the zero value. -/
def Queries.CreateTransfer (q : Queries) (arg : CreateTransferParams) :
    Transfer × Option GoError × Queries :=
  match q.db.fault q.db.log.length with
  | some e => (default, some e, ⟨q.db.failed (.CreateTransfer arg) e⟩)
  | none =>
    match q.db.data.getAccount arg.FromAccountID, q.db.data.getAccount arg.ToAccountID with
    | some _, some _ =>
      let t : Transfer :=
        { ID := q.db.data.nextTransferID, FromAccountID := arg.FromAccountID,
          ToAccountID := arg.ToAccountID, Amount := arg.Amount }
      (t, none, ⟨q.db.done (q.db.data.insertTransfer t) (.CreateTransfer arg) (.transfer t)⟩)
    | _, _ => (default, some ErrForeignKey, ⟨q.db.failed (.CreateTransfer arg) ErrForeignKey⟩)

/-- Modelled from the spec: `createEntry(accountID, signedAmount) -> Entry`.
Fails when an external failure is due, or when the account does not exist. -/
def Queries.CreateEntry (q : Queries) (arg : CreateEntryParams) :
    Entry × Option GoError × Queries :=
  match q.db.fault q.db.log.length with
  | some e => (default, some e, ⟨q.db.failed (.CreateEntry arg) e⟩)
  | none =>
    match q.db.data.getAccount arg.AccountID with
    | some _ =>
      let e : Entry :=
        { ID := q.db.data.nextEntryID, AccountID := arg.AccountID, Amount := arg.Amount }
      (e, none, ⟨q.db.done (q.db.data.insertEntry e) (.CreateEntry arg) (.entry e)⟩)
    | none => (default, some ErrForeignKey, ⟨q.db.failed (.CreateEntry arg) ErrForeignKey⟩)

/-- Modelled from the spec: `getAccountForUpdate(accountID) -> Account`, the
locked read. It returns the row as the transaction sees it. (The lock itself
only matters between concurrent transactions and is visible here as the logged
call.) -/
def Queries.GetAccountForUpdate (q : Queries) (id : Int) :
    Account × Option GoError × Queries :=
  match q.db.fault q.db.log.length with
  | some e => (default, some e, ⟨q.db.failed (.GetAccountForUpdate id) e⟩)
  | none =>
    match q.db.data.getAccount id with
    | some a => (a, none, ⟨q.db.done q.db.data (.GetAccountForUpdate id) (.account a)⟩)
    | none => (default, some ErrNoRows, ⟨q.db.failed (.GetAccountForUpdate id) ErrNoRows⟩)

/-- Modelled from the spec: `updateAccountBalance(accountID, newBalance) -> Account`.
Writes the balance of the row with that identifier and returns the updated row. -/
def Queries.UpdateAccount (q : Queries) (arg : UpdateAccountParams) :
    Account × Option GoError × Queries :=
  match q.db.fault q.db.log.length with
  | some e => (default, some e, ⟨q.db.failed (.UpdateAccount arg) e⟩)
  | none =>
    match q.db.data.getAccount arg.ID with
    | some a =>
      let a1 : Account := { a with Balance := arg.Balance }
      (a1, none,
        ⟨q.db.done (q.db.data.setBalance arg.ID arg.Balance) (.UpdateAccount arg) (.account a1)⟩)
    | none => (default, some ErrNoRows, ⟨q.db.failed (.UpdateAccount arg) ErrNoRows⟩)

/-- Modelled from the spec: the database handle (`*sql.DB`): the committed
data, and, as a record of what was asked of it, the transaction-control calls
and the data-access calls of ended transactions (oldest first). -/
structure SqlDB where
  data : DB
  ops : List TxOp
  log : List Step
  deriving DecidableEq, Repr

/-- Modelled from the spec: `beginUnitOfWork() -> TransactionHandle`. The new
transaction starts from the committed data. -/
def SqlDB.BeginTx (env : Env) (d : SqlDB) : Except GoError Tx × SqlDB :=
  match env.beginErr with
  | some e => (.error e, { d with ops := d.ops ++ [.Begin] })
  | none =>
    (.ok { data := d.data, fault := env.queryErr, log := [] },
      { d with ops := d.ops ++ [.Begin] })

/-- Modelled from the spec: `rollback()`. Nothing the transaction wrote becomes
part of the committed data, whether or not the call itself reports an error. -/
def Tx.Rollback (env : Env) (tx : Tx) (d : SqlDB) : Option GoError × SqlDB :=
  (env.rollbackErr, { d with ops := d.ops ++ [.Rollback], log := d.log ++ tx.log })

/-- Modelled from the spec: `commit()`. On success the transaction's view
becomes the committed data; a failed commit commits nothing. -/
def Tx.Commit (env : Env) (tx : Tx) (d : SqlDB) : Option GoError × SqlDB :=
  match env.commitErr with
  | some e => (some e, { d with ops := d.ops ++ [.Commit], log := d.log ++ tx.log })
  | none => (none, { data := tx.data, ops := d.ops ++ [.Commit], log := d.log ++ tx.log })

/-- `Store` (store.go lines 24-27). -/
structure Store where
  db : SqlDB
  deriving DecidableEq, Repr

/-- `NewStore` (store.go lines 29-34). -/
def NewStore (d : SqlDB) : Store := ⟨d⟩

/-- Modelled from the spec: `getAccount(id)` on the store, a plain read of the
committed data. -/
def Store.GetAccount (store : Store) (id : Int) : Account × Option GoError :=
  match store.db.data.getAccount id with
  | some a => (a, none)
  | none => (default, some ErrNoRows)

/-- Modelled from the spec: `getEntry(id)` on the store. -/
def Store.GetEntry (store : Store) (id : Int) : Entry × Option GoError :=
  match store.db.data.getEntry id with
  | some e => (e, none)
  | none => (default, some ErrNoRows)

/-- Modelled from the spec: `getTransfer(id)` on the store. -/
def Store.GetTransfer (store : Store) (id : Int) : Transfer × Option GoError :=
  match store.db.data.getTransfer id with
  | some t => (t, none)
  | none => (default, some ErrNoRows)

/-! ## `execTx` and `TransferTx` -/

/-- `Store.execTx` (store.go lines 50-66). `fn` is the work function; `s` is
the state its closure captures. -/
def Store.execTx {σ : Type} (env : Env) (store : Store)
    (fn : Queries → σ → Option GoError × Queries × σ) (s : σ) :
    Option GoError × Store × σ :=
  match store.db.BeginTx env with
  | (.error err, d) => (some err, ⟨d⟩, s)
  | (.ok tx, d) =>
    let q := New tx
    match fn q s with
    | (some err, q, s) =>
      match q.db.Rollback env d with
      | (some rbErr, d) => (some (fmt.Errorf err rbErr), ⟨d⟩, s)
      | (none, d) => (some err, ⟨d⟩, s)
    | (none, q, s) =>
      match q.db.Commit env d with
      | (err, d) => (err, ⟨d⟩, s)

/-- The closure `TransferTx` passes to `execTx` (store.go lines 89-153). -/
def TransferTx.fn (arg : TransferTxParams) (q : Queries) (result : TransferTxResult) :
    Option GoError × Queries × TransferTxResult :=
  match q.CreateTransfer
      { FromAccountID := arg.FromAccountID, ToAccountID := arg.ToAccountID,
        Amount := arg.Amount } with
  | (t, some err, q) => (some err, q, { result with Transfer := t })
  | (t, none, q) =>
    let result := { result with Transfer := t }
    match q.CreateEntry { AccountID := arg.FromAccountID, Amount := neg64 arg.Amount } with
    | (e, some err, q) => (some err, q, { result with FromEntry := e })
    | (e, none, q) =>
      let result := { result with FromEntry := e }
      match q.CreateEntry { AccountID := arg.ToAccountID, Amount := arg.Amount } with
      | (e, some err, q) => (some err, q, { result with ToEntry := e })
      | (e, none, q) =>
        let result := { result with ToEntry := e }
        match q.GetAccountForUpdate arg.FromAccountID with
        | (_, some _, q) => (none, q, result)
        | (account1, none, q) =>
          match q.UpdateAccount
              { ID := arg.FromAccountID, Balance := sub64 account1.Balance arg.Amount } with
          | (a, some err, q) => (some err, q, { result with FromAccount := a })
          | (a, none, q) =>
            let result := { result with FromAccount := a }
            match q.GetAccountForUpdate arg.ToAccountID with
            | (_, some _, q) => (none, q, result)
            | (account2, none, q) =>
              match q.UpdateAccount
                  { ID := arg.ToAccountID, Balance := add64 account2.Balance arg.Amount } with
              | (a, some err, q) => (some err, q, { result with ToAccount := a })
              | (a, none, q) => (none, q, { result with ToAccount := a })

/-- `Store.TransferTx` (store.go lines 86-155): returns the result, the error
and the store afterwards. -/
def Store.TransferTx (env : Env) (store : Store) (arg : TransferTxParams) :
    TransferTxResult × Option GoError × Store :=
  match store.execTx env (TransferTx.fn arg) default with
  | (err, store, result) => (result, err, store)

/-! ## The run in which every step succeeds -/

/-- The transfer row a successful run creates. -/
def TransferTx.okTransfer (arg : TransferTxParams) (d : DB) : Transfer :=
  { ID := d.nextTransferID, FromAccountID := arg.FromAccountID,
    ToAccountID := arg.ToAccountID, Amount := arg.Amount }

/-- The debit entry a successful run creates. -/
def TransferTx.okFromEntry (arg : TransferTxParams) (d : DB) : Entry :=
  { ID := d.nextEntryID, AccountID := arg.FromAccountID, Amount := neg64 arg.Amount }

/-- The credit entry a successful run creates. -/
def TransferTx.okToEntry (arg : TransferTxParams) (d : DB) : Entry :=
  { ID := d.nextEntryID + 1, AccountID := arg.ToAccountID, Amount := arg.Amount }

/-- The row the second locked read returns, given the rows `a1` and `a2` the two
accounts had when the transaction began: the first update is visible when both
identifiers name the same account. -/
def TransferTx.account2 (arg : TransferTxParams) (a1 a2 : Account) : Account :=
  if arg.ToAccountID = arg.FromAccountID then
    { a2 with Balance := sub64 a1.Balance arg.Amount }
  else a2

/-- The data a successful run leaves in the transaction, `a1` and `a2` being
the rows the two locked reads returned. -/
def TransferTx.okData (arg : TransferTxParams) (d : DB) (a1 a2 : Account) : DB :=
  ((((d.insertTransfer (TransferTx.okTransfer arg d)).insertEntry
        (TransferTx.okFromEntry arg d)).insertEntry (TransferTx.okToEntry arg d)).setBalance
      arg.FromAccountID (sub64 a1.Balance arg.Amount)).setBalance
    arg.ToAccountID (add64 a2.Balance arg.Amount)

/-- The data-access calls of a successful run with what each returned, `a1` and
`a2` being the rows the two locked reads returned. -/
def TransferTx.okLog (arg : TransferTxParams) (d : DB) (a1 a2 : Account) : List Step :=
  [ ⟨.CreateTransfer ⟨arg.FromAccountID, arg.ToAccountID, arg.Amount⟩,
      .transfer (TransferTx.okTransfer arg d)⟩,
    ⟨.CreateEntry ⟨arg.FromAccountID, neg64 arg.Amount⟩, .entry (TransferTx.okFromEntry arg d)⟩,
    ⟨.CreateEntry ⟨arg.ToAccountID, arg.Amount⟩, .entry (TransferTx.okToEntry arg d)⟩,
    ⟨.GetAccountForUpdate arg.FromAccountID, .account a1⟩,
    ⟨.UpdateAccount ⟨arg.FromAccountID, sub64 a1.Balance arg.Amount⟩,
      .account { a1 with Balance := sub64 a1.Balance arg.Amount }⟩,
    ⟨.GetAccountForUpdate arg.ToAccountID, .account a2⟩,
    ⟨.UpdateAccount ⟨arg.ToAccountID, add64 a2.Balance arg.Amount⟩,
      .account { a2 with Balance := add64 a2.Balance arg.Amount }⟩ ]

/-- The composed result of a successful run. -/
def TransferTx.okResult (arg : TransferTxParams) (d : DB) (a1 a2 : Account) :
    TransferTxResult :=
  { Transfer := TransferTx.okTransfer arg d,
    FromAccount := { a1 with Balance := sub64 a1.Balance arg.Amount },
    ToAccount := { a2 with Balance := add64 a2.Balance arg.Amount },
    FromEntry := TransferTx.okFromEntry arg d,
    ToEntry := TransferTx.okToEntry arg d }

/-- The step sequence of section 4.2 of the specification, as data-access calls:
create the transfer, the debit entry, the credit entry, then read and update the
source account, then read and update the destination account. `m` is the amount
of the debit entry (`-amount` in the specification), `n1` and `n2` are the
balances written by the two updates (`b1 - amount` and `b2 + amount` in the
specification, `b1` and `b2` being the balances the two locked reads returned). -/
def TransferTx.stepSequence (arg : TransferTxParams) (m n1 n2 : Int) : List Call :=
  [ .CreateTransfer ⟨arg.FromAccountID, arg.ToAccountID, arg.Amount⟩,
    .CreateEntry ⟨arg.FromAccountID, m⟩,
    .CreateEntry ⟨arg.ToAccountID, arg.Amount⟩,
    .GetAccountForUpdate arg.FromAccountID,
    .UpdateAccount ⟨arg.FromAccountID, n1⟩,
    .GetAccountForUpdate arg.ToAccountID,
    .UpdateAccount ⟨arg.ToAccountID, n2⟩ ]

/-- The `int64` value `n` is the mathematical integer `x` as Go computes it:
`n` is in the `int64` range and differs from `x` by a multiple of `2 ^ 64`
(so `n = x` whenever `x` itself is in range). -/
def wraps (x n : Int) : Prop := isInt64 n ∧ (n - x) % 2 ^ 64 = 0

instance (x n : Int) : Decidable (wraps x n) := by
  unfold wraps; exact inferInstance

/-! ## Reading the call log -/

/-- The calls of a log that touch account rows: the locked reads and the
balance updates, in issue order. -/
def accountCalls (l : List Step) : List Call :=
  (l.map Step.call).filter fun c =>
    match c with
    | .GetAccountForUpdate _ => true
    | .UpdateAccount _ => true
    | _ => false

/-- The account identifiers of the locked reads of a log, in issue order: the
order in which the rows are locked. -/
def lockOrder (l : List Step) : List Int :=
  l.filterMap fun s =>
    match s.call with
    | .GetAccountForUpdate id => some id
    | _ => none

/-- The data-access calls one call of `TransferTx` added to the store's log. -/
def Store.callsOf (store : Store) (env : Env) (arg : TransferTxParams) : List Step :=
  (store.TransferTx env arg).2.2.db.log.drop store.db.log.length

/-! ## Transfers one after another (store_test.go lines 131-176, run in sequence) -/

/-- The parameters of the `n` transfers of `TestTransferTxDeadlock` (store_test.go
lines 137-152): transfer `i` goes from `a` to `b`, and the other way when `i` is odd. -/
def alternating (a b amount : Int) (n : Nat) : List TransferTxParams :=
  (List.range n).map fun i =>
    if i % 2 = 1 then ⟨b, a, amount⟩ else ⟨a, b, amount⟩

/-- Runs the transfers one after another on the store, collecting the error each
one returned. -/
def Store.transferAll (env : Env) (store : Store) :
    List TransferTxParams → List (Option GoError) × Store
  | [] => ([], store)
  | arg :: rest =>
    let out := store.TransferTx env arg
    let tail := Store.transferAll env out.2.2 rest
    (out.2.1 :: tail.1, tail.2)

/-! ## Concrete stores and worlds -/

/-- Two accounts, 1 and 2, with balance 100 each, and no transfer yet. -/
def exampleDB : DB :=
  { accounts := [⟨1, 100⟩, ⟨2, 100⟩], entries := [], transfers := [],
    nextEntryID := 1, nextTransferID := 1 }

/-- A store over `exampleDB` that has not been asked anything yet. -/
def exampleStore : Store := ⟨⟨exampleDB, [], []⟩⟩

/-- The world in which data-access call number `n` of the transaction fails with
`e` and nothing else fails. -/
def Env.failAt (n : Nat) (e : GoError) : Env :=
  { beginErr := none, commitErr := none, rollbackErr := none,
    queryErr := fun i => if i = n then some e else none }

/-- A lock-wait timeout reported by the store. -/
def errLockTimeout : GoError := ⟨"pq: canceling statement due to lock timeout"⟩

/-- A work function that touches nothing and fails. -/
def failingWork (e : GoError) (q : Queries) (s : Nat) : Option GoError × Queries × Nat :=
  (some e, q, s)

/-- A work function that touches nothing and succeeds, counting its invocation. -/
def countingWork (q : Queries) (s : Nat) : Option GoError × Queries × Nat :=
  (none, q, s + 1)

/-- A lost connection reported by the driver. -/
def errBadConn : GoError := ⟨"driver: bad connection"⟩

/-- The world in which only `Rollback` fails, with `r`. -/
def Env.rollbackFails (r : GoError) : Env :=
  { beginErr := none, commitErr := none, rollbackErr := some r, queryErr := fun _ => none }

/-- The world in which only `Commit` fails, with `c`. -/
def Env.commitFails (c : GoError) : Env :=
  { beginErr := none, commitErr := some c, rollbackErr := none, queryErr := fun _ => none }

/-- The world in which the transaction cannot be begun. -/
def Env.beginFails (b : GoError) : Env :=
  { beginErr := some b, commitErr := none, rollbackErr := none, queryErr := fun _ => none }

/-! ## Arithmetic of `int64` -/

theorem wrap64_of_isInt64 {x : Int} (h : isInt64 x) : wrap64 x = x := by
  unfold isInt64 at h
  unfold wrap64
  omega

theorem isInt64_wrap64 (x : Int) : isInt64 (wrap64 x) := by
  unfold isInt64 wrap64
  omega

theorem add64_sub64 {b : Int} (h : isInt64 b) (m : Int) : add64 (sub64 b m) m = b := by
  unfold isInt64 at h
  unfold add64 sub64 wrap64
  omega

theorem sub64_add64 {b : Int} (h : isInt64 b) (m : Int) : sub64 (add64 b m) m = b := by
  unfold isInt64 at h
  unfold add64 sub64 wrap64
  omega

theorem sub64_ne_self {b m : Int} (h0 : 0 < m) (h1 : m < 2 ^ 63) : sub64 b m ≠ b := by
  unfold sub64 wrap64
  omega

theorem neg64_of_pos {m : Int} (h0 : -(2 ^ 63) < m) (h1 : m < 2 ^ 63) : neg64 m = -m := by
  unfold neg64 wrap64
  omega

/-- The wrap-around of `x` is the `int64` value of `x`. -/
theorem wraps_wrap64 (x : Int) : wraps x (wrap64 x) := by
  unfold wraps isInt64 wrap64
  omega

/-- The `int64` value of an integer that is in range is that integer. -/
theorem wraps_eq {x n : Int} (h : wraps x n) (hx : isInt64 x) : n = x := by
  unfold wraps isInt64 at h
  unfold isInt64 at hx
  omega

/-- Debiting an `int64` amount other than zero changes the balance. -/
theorem sub64_ne_self_of_ne_zero {b m : Int} (hm : isInt64 m) (h0 : m ≠ 0) :
    sub64 b m ≠ b := by
  unfold isInt64 at hm
  unfold sub64 wrap64
  omega

/-! ## Reads after writes -/

@[simp]
theorem insertTransfer_nextEntryID (d : DB) (t : Transfer) :
    (d.insertTransfer t).nextEntryID = d.nextEntryID := rfl

@[simp]
theorem insertEntry_nextEntryID (d : DB) (e : Entry) :
    (d.insertEntry e).nextEntryID = d.nextEntryID + 1 := rfl

@[simp]
theorem insertTransfer_transfers (d : DB) (t : Transfer) :
    (d.insertTransfer t).transfers = d.transfers ++ [t] := rfl

@[simp]
theorem insertEntry_transfers (d : DB) (e : Entry) :
    (d.insertEntry e).transfers = d.transfers := rfl

@[simp]
theorem setBalance_transfers (d : DB) (id bal : Int) :
    (d.setBalance id bal).transfers = d.transfers := rfl

@[simp]
theorem insertTransfer_entries (d : DB) (t : Transfer) :
    (d.insertTransfer t).entries = d.entries := rfl

@[simp]
theorem insertEntry_entries (d : DB) (e : Entry) :
    (d.insertEntry e).entries = d.entries ++ [e] := rfl

@[simp]
theorem setBalance_entries (d : DB) (id bal : Int) :
    (d.setBalance id bal).entries = d.entries := rfl

@[simp]
theorem getAccount_insertTransfer (d : DB) (t : Transfer) (id : Int) :
    (d.insertTransfer t).getAccount id = d.getAccount id := rfl

@[simp]
theorem getAccount_insertEntry (d : DB) (e : Entry) (id : Int) :
    (d.insertEntry e).getAccount id = d.getAccount id := rfl

theorem getAccount_ID {d : DB} {id : Int} {a : Account} (h : d.getAccount id = some a) :
    a.ID = id := by
  have := List.find?_some h
  simpa using this

theorem getAccount_setBalance (d : DB) (id bal id' : Int) :
    (d.setBalance id bal).getAccount id' =
      (d.getAccount id').map (fun x => if x.ID = id then { x with Balance := bal } else x) := by
  unfold DB.setBalance DB.getAccount
  simp only [List.find?_map]
  congr 1
  congr 1
  funext a
  by_cases h : a.ID = id <;> simp [h]

theorem getAccount_setBalance_same {d : DB} {id : Int} {a : Account} (bal : Int)
    (h : d.getAccount id = some a) :
    (d.setBalance id bal).getAccount id = some { a with Balance := bal } := by
  rw [getAccount_setBalance, h]
  simp [getAccount_ID h]

theorem getAccount_setBalance_other {d : DB} {id id' : Int} (bal : Int) (hne : id' ≠ id) :
    (d.setBalance id bal).getAccount id' = d.getAccount id' := by
  rw [getAccount_setBalance]
  cases h : d.getAccount id' with
  | none => rfl
  | some a =>
    have := getAccount_ID h
    simp [this, hne]

/-! ## `execTx` -/

/-- What `execTx` does once the transaction has begun and the work function has
returned an error. -/
theorem execTx_of_fn_error {σ : Type} (env : Env) (store : Store)
    (fn : Queries → σ → Option GoError × Queries × σ) (s s' : σ) (e : GoError) (q' : Queries)
    (hb : env.beginErr = none)
    (hfn : fn (New ⟨store.db.data, env.queryErr, []⟩) s = (some e, q', s')) :
    store.execTx env fn s =
      ((match env.rollbackErr with
        | some r => some (fmt.Errorf e r)
        | none => some e),
       ⟨{ store.db with ops := store.db.ops ++ [.Begin, .Rollback],
                        log := store.db.log ++ q'.db.log }⟩, s') := by
  unfold Store.execTx SqlDB.BeginTx
  simp only [hb, hfn, Tx.Rollback]
  cases env.rollbackErr <;> simp

/-- What `execTx` does once the transaction has begun and the work function has
returned no error. -/
theorem execTx_of_fn_ok {σ : Type} (env : Env) (store : Store)
    (fn : Queries → σ → Option GoError × Queries × σ) (s s' : σ) (q' : Queries)
    (hb : env.beginErr = none)
    (hfn : fn (New ⟨store.db.data, env.queryErr, []⟩) s = (none, q', s')) :
    store.execTx env fn s =
      (env.commitErr,
       ⟨{ data := match env.commitErr with
                  | some _ => store.db.data
                  | none => q'.db.data,
          ops := store.db.ops ++ [.Begin, .Commit],
          log := store.db.log ++ q'.db.log }⟩, s') := by
  unfold Store.execTx SqlDB.BeginTx
  simp only [hb, hfn, Tx.Commit]
  cases env.commitErr <;> simp

/-- What `execTx` does when the transaction cannot be begun. -/
theorem execTx_of_begin_error {σ : Type} (env : Env) (store : Store)
    (fn : Queries → σ → Option GoError × Queries × σ) (s : σ) (e : GoError)
    (hb : env.beginErr = some e) :
    store.execTx env fn s = (some e, ⟨{ store.db with ops := store.db.ops ++ [.Begin] }⟩, s) := by
  unfold Store.execTx SqlDB.BeginTx
  simp only [hb]

/-- Whenever `execTx` returns an error, the committed data is what it was. -/
theorem execTx_error_data {σ : Type} (env : Env) (store : Store)
    (fn : Queries → σ → Option GoError × Queries × σ) (s : σ) (e : GoError)
    (h : (store.execTx env fn s).1 = some e) :
    (store.execTx env fn s).2.1.db.data = store.db.data := by
  cases hb : env.beginErr with
  | some be => rw [execTx_of_begin_error env store fn s be hb]
  | none =>
    rcases hfn : fn (New ⟨store.db.data, env.queryErr, []⟩) s with ⟨_ | e0, q', s'⟩
    · rw [execTx_of_fn_ok env store fn s s' q' hb hfn] at h ⊢
      simp only at h
      simp only [h]
    · rw [execTx_of_fn_error env store fn s s' e0 q' hb hfn]

/-- `TransferTx` returns what `execTx` returns, reordered. -/
theorem TransferTx_eq (env : Env) (store : Store) (arg : TransferTxParams) :
    store.TransferTx env arg =
      ((store.execTx env (TransferTx.fn arg) default).2.2,
       (store.execTx env (TransferTx.fn arg) default).1,
       (store.execTx env (TransferTx.fn arg) default).2.1) := rfl

/-- C5. On the error path of `execTx` (the transaction began, the work function
returned the error `e`): the only transaction-control calls made are `Begin`
followed by one `Rollback`, so `Commit` is never called and `Rollback` is called
exactly once; when the rollback succeeds the returned error is `e` itself; when
the rollback fails with `r` the returned error is a new one whose message is
`tx err: <e>, rb err: <r>` and so contains both messages. -/
theorem execTx_error_path {σ : Type} (env : Env) (store : Store)
    (fn : Queries → σ → Option GoError × Queries × σ) (s s' : σ) (e : GoError) (q' : Queries)
    (hb : env.beginErr = none)
    (hfn : fn (New ⟨store.db.data, env.queryErr, []⟩) s = (some e, q', s')) :
    (store.execTx env fn s).2.1.db.ops = store.db.ops ++ [TxOp.Begin, TxOp.Rollback]
    ∧ ((store.execTx env fn s).2.1.db.ops.drop store.db.ops.length).count TxOp.Commit = 0
    ∧ ((store.execTx env fn s).2.1.db.ops.drop store.db.ops.length).count TxOp.Rollback = 1
    ∧ (env.rollbackErr = none → (store.execTx env fn s).1 = some e)
    ∧ (∀ r, env.rollbackErr = some r →
        (store.execTx env fn s).1 = some (fmt.Errorf e r)
        ∧ (fmt.Errorf e r).msg = "tx err: " ++ e.msg ++ ", rb err: " ++ r.msg
        ∧ (∃ pre post, (fmt.Errorf e r).msg = pre ++ e.msg ++ post)
        ∧ (∃ pre post, (fmt.Errorf e r).msg = pre ++ r.msg ++ post)) := by
  rw [execTx_of_fn_error env store fn s s' e q' hb hfn]
  refine ⟨rfl, ?_, ?_, ?_, ?_⟩
  · simp
  · simp
  · intro h
    simp [h]
  · intro r h
    refine ⟨by simp [h], rfl, ⟨"tx err: ", ", rb err: " ++ r.msg, ?_⟩,
      ⟨"tx err: " ++ e.msg ++ ", rb err: ", "", ?_⟩⟩
    · simp [fmt.Errorf, String.append_assoc]
    · simp [fmt.Errorf]

/-- C6. On the success path of `execTx` (the transaction began, the work function
returned no error): the only transaction-control calls made are `Begin`
followed by one `Commit`, `Rollback` is never called, and the returned error is
exactly what `Commit` returned. When the transaction cannot be begun, the result
does not depend on the work function: the begin error is returned, the captured
state is untouched and no data-access call is issued. -/
theorem execTx_success_path {σ : Type} (env : Env) (store : Store)
    (fn : Queries → σ → Option GoError × Queries × σ) (s : σ) :
    (env.beginErr = none → ∀ q' s', fn (New ⟨store.db.data, env.queryErr, []⟩) s = (none, q', s') →
        (store.execTx env fn s).2.1.db.ops = store.db.ops ++ [TxOp.Begin, TxOp.Commit]
        ∧ ((store.execTx env fn s).2.1.db.ops.drop store.db.ops.length).count TxOp.Commit = 1
        ∧ ((store.execTx env fn s).2.1.db.ops.drop store.db.ops.length).count TxOp.Rollback = 0
        ∧ (store.execTx env fn s).1 = env.commitErr
        ∧ (env.commitErr = none → (store.execTx env fn s).2.1.db.data = q'.db.data))
    ∧ (∀ be, env.beginErr = some be →
        store.execTx env fn s =
          (some be, ⟨{ store.db with ops := store.db.ops ++ [TxOp.Begin] }⟩, s)) := by
  refine ⟨?_, ?_⟩
  · intro hb q' s' hfn
    rw [execTx_of_fn_ok env store fn s s' q' hb hfn]
    refine ⟨rfl, by simp, by simp, rfl, ?_⟩
    intro h
    simp [h]
  · intro be hb
    exact execTx_of_begin_error env store fn s be hb

/-- C4. Whenever `TransferTx` returns an error, the committed data (transfers,
entries, accounts) is what it was before the call: `Commit` was not called or
it failed with the returned error, and whenever the work function returned an
error the transaction-control calls are `Begin` followed by `Rollback`. -/
theorem TransferTx_error_atomic (env : Env) (store : Store) (arg : TransferTxParams)
    (e : GoError) (h : (store.TransferTx env arg).2.1 = some e) :
    (store.TransferTx env arg).2.2.db.data = store.db.data
    ∧ (TxOp.Commit ∉ (store.TransferTx env arg).2.2.db.ops.drop store.db.ops.length
        ∨ env.commitErr = some e)
    ∧ (∀ e0, env.beginErr = none →
        (TransferTx.fn arg (New ⟨store.db.data, env.queryErr, []⟩) default).1 = some e0 →
        (store.TransferTx env arg).2.2.db.ops = store.db.ops ++ [TxOp.Begin, TxOp.Rollback]) := by
  rw [TransferTx_eq] at h ⊢
  simp only at h ⊢
  refine ⟨execTx_error_data env store _ _ e h, ?_, ?_⟩
  · cases hb : env.beginErr with
    | some be =>
      left
      rw [execTx_of_begin_error env store _ _ be hb]
      simp
    | none =>
      rcases hfn : TransferTx.fn arg (New ⟨store.db.data, env.queryErr, []⟩) default
        with ⟨_ | e0, q', s'⟩
      · right
        rw [execTx_of_fn_ok env store _ _ s' q' hb hfn] at h
        exact h
      · left
        rw [execTx_of_fn_error env store _ _ s' e0 q' hb hfn]
        simp
  · intro e0 hb h0
    rcases hfn : TransferTx.fn arg (New ⟨store.db.data, env.queryErr, []⟩) default
      with ⟨e1, q', s'⟩
    rw [hfn] at h0
    simp only at h0
    subst h0
    rw [execTx_of_fn_error env store _ _ s' e0 q' hb hfn]

/-- The work function of `TransferTx` when no call fails for an external reason
and both accounts exist: it returns no error and leaves the data, the log and
the result of the successful run. -/
theorem fn_ok (arg : TransferTxParams) (d : DB) (f : Nat → Option GoError)
    (r0 : TransferTxResult) (af at' : Account)
    (hf : ∀ n, n < 7 → f n = none)
    (h1 : d.getAccount arg.FromAccountID = some af)
    (h2 : d.getAccount arg.ToAccountID = some at') :
    TransferTx.fn arg (New ⟨d, f, []⟩) r0 =
      (none,
       ⟨⟨TransferTx.okData arg d af (TransferTx.account2 arg af at'), f,
         TransferTx.okLog arg d af (TransferTx.account2 arg af at')⟩⟩,
       TransferTx.okResult arg d af (TransferTx.account2 arg af at')) := by
  have f0 := hf 0 (by decide)
  have f1 := hf 1 (by decide)
  have f2 := hf 2 (by decide)
  have f3 := hf 3 (by decide)
  have f4 := hf 4 (by decide)
  have f5 := hf 5 (by decide)
  have f6 := hf 6 (by decide)
  have hid := getAccount_ID h2
  simp [TransferTx.fn, Queries.CreateTransfer, Queries.CreateEntry, Queries.GetAccountForUpdate,
    Queries.UpdateAccount, New, Tx.done, f0, f1, f2, f3, f4, f5, f6, h1, h2,
    getAccount_setBalance, hid, TransferTx.okData, TransferTx.okLog, TransferTx.okResult,
    TransferTx.account2, TransferTx.okTransfer, TransferTx.okFromEntry, TransferTx.okToEntry]

/-- When the work function of `TransferTx` returns no error, the transfer and
both entries were created with the requested fields, are in the result and are
exactly the rows added to the data the transaction holds. -/
theorem fn_created (arg : TransferTxParams) (d : DB) (f : Nat → Option GoError)
    (r0 : TransferTxResult)
    (h : (TransferTx.fn arg (New ⟨d, f, []⟩) r0).1 = none) :
    (TransferTx.fn arg (New ⟨d, f, []⟩) r0).2.2.Transfer = TransferTx.okTransfer arg d
    ∧ (TransferTx.fn arg (New ⟨d, f, []⟩) r0).2.2.FromEntry = TransferTx.okFromEntry arg d
    ∧ (TransferTx.fn arg (New ⟨d, f, []⟩) r0).2.2.ToEntry = TransferTx.okToEntry arg d
    ∧ (TransferTx.fn arg (New ⟨d, f, []⟩) r0).2.1.db.data.transfers
        = d.transfers ++ [TransferTx.okTransfer arg d]
    ∧ (TransferTx.fn arg (New ⟨d, f, []⟩) r0).2.1.db.data.entries
        = d.entries ++ [TransferTx.okFromEntry arg d, TransferTx.okToEntry arg d] := by
  rcases h0 : f 0 with _ | e
  swap
  · simp [TransferTx.fn, Queries.CreateTransfer, New, h0] at h
  rcases hgf : d.getAccount arg.FromAccountID with _ | af
  · simp [TransferTx.fn, Queries.CreateTransfer, New, h0, hgf] at h
  rcases hgt : d.getAccount arg.ToAccountID with _ | at'
  · simp [TransferTx.fn, Queries.CreateTransfer, New, h0, hgf, hgt] at h
  rcases h1 : f 1 with _ | e
  swap
  · simp [TransferTx.fn, Queries.CreateTransfer, Queries.CreateEntry, New, Tx.done,
      h0, hgf, hgt, h1] at h
  rcases h2 : f 2 with _ | e
  swap
  · simp [TransferTx.fn, Queries.CreateTransfer, Queries.CreateEntry, New, Tx.done,
      h0, hgf, hgt, h1, h2] at h
  have hid := getAccount_ID hgt
  rcases h3 : f 3 with _ | e
  swap
  · simp [TransferTx.fn, Queries.CreateTransfer, Queries.CreateEntry,
      Queries.GetAccountForUpdate, New, Tx.done, Tx.failed, h0, hgf, hgt, h1, h2, h3,
      TransferTx.okTransfer, TransferTx.okFromEntry, TransferTx.okToEntry]
  rcases h4 : f 4 with _ | e
  swap
  · simp [TransferTx.fn, Queries.CreateTransfer, Queries.CreateEntry,
      Queries.GetAccountForUpdate, Queries.UpdateAccount, New, Tx.done, Tx.failed,
      h0, hgf, hgt, h1, h2, h3, h4] at h
  rcases h5 : f 5 with _ | e
  swap
  · simp [TransferTx.fn, Queries.CreateTransfer, Queries.CreateEntry,
      Queries.GetAccountForUpdate, Queries.UpdateAccount, New, Tx.done, Tx.failed,
      h0, hgf, hgt, h1, h2, h3, h4, h5,
      TransferTx.okTransfer, TransferTx.okFromEntry, TransferTx.okToEntry]
  rcases h6 : f 6 with _ | e
  swap
  · simp [TransferTx.fn, Queries.CreateTransfer, Queries.CreateEntry,
      Queries.GetAccountForUpdate, Queries.UpdateAccount, New, Tx.done, Tx.failed,
      h0, hgf, hgt, h1, h2, h3, h4, h5, h6, getAccount_setBalance, hid] at h
  simp [TransferTx.fn, Queries.CreateTransfer, Queries.CreateEntry,
      Queries.GetAccountForUpdate, Queries.UpdateAccount, New, Tx.done, Tx.failed,
      h0, hgf, hgt, h1, h2, h3, h4, h5, h6, getAccount_setBalance, hid,
      TransferTx.okTransfer, TransferTx.okFromEntry, TransferTx.okToEntry]

/-- The calls of the work function of `TransferTx` are an initial segment of the
step sequence in Go's arithmetic; an update that was issued was computed from
the row the locked read before it returned; and when no call failed the log is
that of the successful run. -/
theorem fn_log (arg : TransferTxParams) (d : DB) (f : Nat → Option GoError)
    (r0 : TransferTxResult) :
    ∃ a1 a2 : Account,
      (TransferTx.fn arg (New ⟨d, f, []⟩) r0).2.1.db.log.map Step.call
        <+: TransferTx.stepSequence arg (neg64 arg.Amount)
              (sub64 a1.Balance arg.Amount) (add64 a2.Balance arg.Amount)
      ∧ (4 < (TransferTx.fn arg (New ⟨d, f, []⟩) r0).2.1.db.log.length →
          ((TransferTx.fn arg (New ⟨d, f, []⟩) r0).2.1.db.log.map Step.reply)[3]?
            = some (.account a1))
      ∧ (6 < (TransferTx.fn arg (New ⟨d, f, []⟩) r0).2.1.db.log.length →
          ((TransferTx.fn arg (New ⟨d, f, []⟩) r0).2.1.db.log.map Step.reply)[5]?
            = some (.account a2))
      ∧ ((TransferTx.fn arg (New ⟨d, f, []⟩) r0).2.1.db.log.all Step.ok = true →
          (TransferTx.fn arg (New ⟨d, f, []⟩) r0).2.1.db.log = TransferTx.okLog arg d a1 a2) := by
  rcases h0 : f 0 with _ | e
  swap
  · refine ⟨default, default, ?_, ?_, ?_, ?_⟩ <;>
    simp [TransferTx.fn, Queries.CreateTransfer, Queries.CreateEntry,
      Queries.GetAccountForUpdate, Queries.UpdateAccount, New, Tx.done, Tx.failed,
      h0, TransferTx.stepSequence, Step.ok]
  rcases hgf : d.getAccount arg.FromAccountID with _ | af
  · refine ⟨default, default, ?_, ?_, ?_, ?_⟩ <;>
    simp [TransferTx.fn, Queries.CreateTransfer, Queries.CreateEntry,
      Queries.GetAccountForUpdate, Queries.UpdateAccount, New, Tx.done, Tx.failed,
      h0, hgf, TransferTx.stepSequence, Step.ok]
  rcases hgt : d.getAccount arg.ToAccountID with _ | at'
  · refine ⟨default, default, ?_, ?_, ?_, ?_⟩ <;>
    simp [TransferTx.fn, Queries.CreateTransfer, Queries.CreateEntry,
      Queries.GetAccountForUpdate, Queries.UpdateAccount, New, Tx.done, Tx.failed,
      h0, hgf, hgt, TransferTx.stepSequence, Step.ok]
  rcases h1 : f 1 with _ | e
  swap
  · refine ⟨default, default, ?_, ?_, ?_, ?_⟩ <;>
    simp [TransferTx.fn, Queries.CreateTransfer, Queries.CreateEntry,
      Queries.GetAccountForUpdate, Queries.UpdateAccount, New, Tx.done, Tx.failed,
      h0, hgf, hgt, h1, TransferTx.stepSequence, Step.ok]
  rcases h2 : f 2 with _ | e
  swap
  · refine ⟨default, default, ?_, ?_, ?_, ?_⟩ <;>
    simp [TransferTx.fn, Queries.CreateTransfer, Queries.CreateEntry,
      Queries.GetAccountForUpdate, Queries.UpdateAccount, New, Tx.done, Tx.failed,
      h0, hgf, hgt, h1, h2, TransferTx.stepSequence, Step.ok]
  have hid := getAccount_ID hgt
  rcases h3 : f 3 with _ | e
  swap
  · refine ⟨default, default, ?_, ?_, ?_, ?_⟩ <;>
    simp [TransferTx.fn, Queries.CreateTransfer, Queries.CreateEntry,
      Queries.GetAccountForUpdate, Queries.UpdateAccount, New, Tx.done, Tx.failed,
      h0, hgf, hgt, h1, h2, h3, TransferTx.stepSequence, Step.ok]
  rcases h4 : f 4 with _ | e
  swap
  · refine ⟨af, default, ?_, ?_, ?_, ?_⟩ <;>
    simp [TransferTx.fn, Queries.CreateTransfer, Queries.CreateEntry,
      Queries.GetAccountForUpdate, Queries.UpdateAccount, New, Tx.done, Tx.failed,
      h0, hgf, hgt, h1, h2, h3, h4, TransferTx.stepSequence, Step.ok]
  rcases h5 : f 5 with _ | e
  swap
  · refine ⟨af, default, ?_, ?_, ?_, ?_⟩ <;>
    simp [TransferTx.fn, Queries.CreateTransfer, Queries.CreateEntry,
      Queries.GetAccountForUpdate, Queries.UpdateAccount, New, Tx.done, Tx.failed,
      h0, hgf, hgt, h1, h2, h3, h4, h5, TransferTx.stepSequence, Step.ok]
  rcases h6 : f 6 with _ | e
  swap
  · refine ⟨af, (TransferTx.account2 arg af at'), ?_, ?_, ?_, ?_⟩ <;>
    simp [TransferTx.fn, Queries.CreateTransfer, Queries.CreateEntry,
      Queries.GetAccountForUpdate, Queries.UpdateAccount, New, Tx.done, Tx.failed,
      h0, hgf, hgt, h1, h2, h3, h4, h5, h6, getAccount_setBalance, hid, TransferTx.stepSequence, Step.ok, TransferTx.account2]
  have hf : ∀ n, n < 7 → f n = none := by
    intro n hn
    interval_cases n <;> assumption
  rw [fn_ok arg d f r0 af at' hf hgf hgt]
  refine ⟨af, TransferTx.account2 arg af at', ?_, ?_, ?_, ?_⟩
  · simp [TransferTx.okLog, TransferTx.stepSequence]
  · simp [TransferTx.okLog]
  · simp [TransferTx.okLog]
  · intro _
    rfl

/-- Once the transaction has begun, the store's log grows by the calls of the
work function, committed or not. -/
theorem TransferTx_log (env : Env) (store : Store) (arg : TransferTxParams)
    (hb : env.beginErr = none) :
    (store.TransferTx env arg).2.2.db.log =
      store.db.log ++ (TransferTx.fn arg (New ⟨store.db.data, env.queryErr, []⟩) default).2.1.db.log := by
  rw [TransferTx_eq]
  rcases hfn : TransferTx.fn arg (New ⟨store.db.data, env.queryErr, []⟩) default
    with ⟨_ | e0, q', s'⟩
  · rw [execTx_of_fn_ok env store _ _ s' q' hb hfn]
  · rw [execTx_of_fn_error env store _ _ s' e0 q' hb hfn]

/-- Once the transaction has begun, the calls `TransferTx` added to the log are
those of its work function. -/
theorem callsOf_eq (env : Env) (store : Store) (arg : TransferTxParams)
    (hb : env.beginErr = none) :
    store.callsOf env arg =
      (TransferTx.fn arg (New ⟨store.db.data, env.queryErr, []⟩) default).2.1.db.log := by
  unfold Store.callsOf
  rw [TransferTx_log env store arg hb]
  simp

/-- The run of `TransferTx` in which nothing fails. -/
theorem TransferTx_ok (env : Env) (store : Store) (arg : TransferTxParams) (af at' : Account)
    (hb : env.beginErr = none) (hc : env.commitErr = none)
    (hf : ∀ n, n < 7 → env.queryErr n = none)
    (h1 : store.db.data.getAccount arg.FromAccountID = some af)
    (h2 : store.db.data.getAccount arg.ToAccountID = some at') :
    store.TransferTx env arg =
      (TransferTx.okResult arg store.db.data af (TransferTx.account2 arg af at'), none,
       ⟨{ data := TransferTx.okData arg store.db.data af (TransferTx.account2 arg af at'),
          ops := store.db.ops ++ [.Begin, .Commit],
          log := store.db.log ++
            TransferTx.okLog arg store.db.data af (TransferTx.account2 arg af at') }⟩) := by
  rw [TransferTx_eq,
    execTx_of_fn_ok env store _ _ _ _ hb (fn_ok arg store.db.data env.queryErr default af at' hf h1 h2)]
  simp [hc]

/-- A transfer that is in the table is found by its identifier. -/
theorem getTransfer_of_mem {d : DB} {t : Transfer} (h : t ∈ d.transfers) :
    (d.getTransfer t.ID).isSome = true := by
  unfold DB.getTransfer
  rw [List.find?_isSome]
  exact ⟨t, h, by simp⟩

/-- An entry that is in the table is found by its identifier. -/
theorem getEntry_of_mem {d : DB} {e : Entry} (h : e ∈ d.entries) :
    (d.getEntry e.ID).isSome = true := by
  unfold DB.getEntry
  rw [List.find?_isSome]
  exact ⟨e, h, by simp⟩

/-- `GetTransfer` succeeds on the identifier of a committed transfer. -/
theorem GetTransfer_of_mem {store : Store} {t : Transfer} (h : t ∈ store.db.data.transfers) :
    (store.GetTransfer t.ID).2 = none := by
  have := getTransfer_of_mem h
  unfold Store.GetTransfer
  cases hg : store.db.data.getTransfer t.ID with
  | none => simp [hg] at this
  | some x => rfl

/-- `GetEntry` succeeds on the identifier of a committed entry. -/
theorem GetEntry_of_mem {store : Store} {e : Entry} (h : e ∈ store.db.data.entries) :
    (store.GetEntry e.ID).2 = none := by
  have := getEntry_of_mem h
  unfold Store.GetEntry
  cases hg : store.db.data.getEntry e.ID with
  | none => simp [hg] at this
  | some x => rfl

/-- When `TransferTx` returns no error, the work function returned no error and
its data was committed. -/
theorem TransferTx_none (env : Env) (store : Store) (arg : TransferTxParams)
    (h : (store.TransferTx env arg).2.1 = none) :
    (TransferTx.fn arg (New ⟨store.db.data, env.queryErr, []⟩) default).1 = none
    ∧ (store.TransferTx env arg).1
        = (TransferTx.fn arg (New ⟨store.db.data, env.queryErr, []⟩) default).2.2
    ∧ (store.TransferTx env arg).2.2.db.data
        = (TransferTx.fn arg (New ⟨store.db.data, env.queryErr, []⟩) default).2.1.db.data := by
  rw [TransferTx_eq] at h ⊢
  simp only at h ⊢
  cases hb : env.beginErr with
  | some be =>
    rw [execTx_of_begin_error env store _ _ be hb] at h
    simp at h
  | none =>
    rcases hfn : TransferTx.fn arg (New ⟨store.db.data, env.queryErr, []⟩) default
      with ⟨_ | e0, q', s'⟩
    · rw [execTx_of_fn_ok env store _ _ s' q' hb hfn] at h ⊢
      simp only at h
      simp [h]
    · rw [execTx_of_fn_error env store _ _ s' e0 q' hb hfn] at h
      cases hr : env.rollbackErr <;> simp [hr] at h

/-- C7. Whenever `TransferTx` returns no error: the returned transfer carries
`from`, `to` and `amount`; the returned debit entry is on `from` with amount
`-amount` (Go's negation, which is the mathematical one for every `int64`
amount other than the least); the returned credit entry is on `to` with amount
`amount`; these three records are exactly the rows the call added to the
committed store, and `GetTransfer` / `GetEntry` on their identifiers succeed. -/
theorem TransferTx_records (env : Env) (store : Store) (arg : TransferTxParams)
    (h : (store.TransferTx env arg).2.1 = none) :
    (store.TransferTx env arg).1.Transfer.FromAccountID = arg.FromAccountID
    ∧ (store.TransferTx env arg).1.Transfer.ToAccountID = arg.ToAccountID
    ∧ (store.TransferTx env arg).1.Transfer.Amount = arg.Amount
    ∧ (store.TransferTx env arg).1.FromEntry.AccountID = arg.FromAccountID
    ∧ (store.TransferTx env arg).1.FromEntry.Amount = neg64 arg.Amount
    ∧ (-(2 ^ 63) < arg.Amount → arg.Amount < 2 ^ 63 →
        (store.TransferTx env arg).1.FromEntry.Amount = -arg.Amount)
    ∧ (store.TransferTx env arg).1.ToEntry.AccountID = arg.ToAccountID
    ∧ (store.TransferTx env arg).1.ToEntry.Amount = arg.Amount
    ∧ (store.TransferTx env arg).2.2.db.data.transfers
        = store.db.data.transfers ++ [(store.TransferTx env arg).1.Transfer]
    ∧ (store.TransferTx env arg).2.2.db.data.entries
        = store.db.data.entries
            ++ [(store.TransferTx env arg).1.FromEntry, (store.TransferTx env arg).1.ToEntry]
    ∧ ((store.TransferTx env arg).2.2.GetTransfer (store.TransferTx env arg).1.Transfer.ID).2 = none
    ∧ ((store.TransferTx env arg).2.2.GetEntry (store.TransferTx env arg).1.FromEntry.ID).2 = none
    ∧ ((store.TransferTx env arg).2.2.GetEntry (store.TransferTx env arg).1.ToEntry.ID).2 = none := by
  obtain ⟨hn, hr, hd⟩ := TransferTx_none env store arg h
  obtain ⟨ht, he1, he2, hts, hes⟩ := fn_created arg store.db.data env.queryErr default hn
  rw [← hr] at ht he1 he2
  rw [← hd] at hts hes
  have hts' : (store.TransferTx env arg).2.2.db.data.transfers
      = store.db.data.transfers ++ [(store.TransferTx env arg).1.Transfer] := by rw [hts, ht]
  have hes' : (store.TransferTx env arg).2.2.db.data.entries
      = store.db.data.entries
          ++ [(store.TransferTx env arg).1.FromEntry, (store.TransferTx env arg).1.ToEntry] := by
    rw [hes, he1, he2]
  refine ⟨by rw [ht]; rfl, by rw [ht]; rfl, by rw [ht]; rfl, by rw [he1]; rfl, by rw [he1]; rfl,
    ?_, by rw [he2]; rfl, by rw [he2]; rfl, hts', hes', ?_, ?_, ?_⟩
  · intro h0 h1
    rw [he1]
    exact neg64_of_pos h0 h1
  · apply GetTransfer_of_mem
    rw [hts']
    simp
  · apply GetEntry_of_mem
    rw [hes']
    simp
  · apply GetEntry_of_mem
    rw [hes']
    simp

/-- C9. Once the transaction has begun, the data-access calls `TransferTx`
issues are an initial segment of the step sequence CreateTransfer(from, to,
amount), CreateEntry(from, -amount), CreateEntry(to, amount),
GetAccountForUpdate(from), UpdateAccount(from, b1 - amount),
GetAccountForUpdate(to), UpdateAccount(to, b2 + amount), where `-amount`,
`b1 - amount` and `b2 + amount` are taken as Go computes them on `int64` (they
are the mathematical values whenever those are in range). Whenever the fifth
call was issued, `b1` is the balance of the row `a1` that the fourth call, the
locked read just before it, returned; whenever the seventh call was issued,
`b2` is the balance of the row `a2` that the sixth call returned. When no issued
call failed the calls are the whole sequence. -/
theorem TransferTx_step_sequence (env : Env) (store : Store) (arg : TransferTxParams)
    (hb : env.beginErr = none) :
    ∃ a1 a2 : Account,
      (store.callsOf env arg).map Step.call
        <+: TransferTx.stepSequence arg (neg64 arg.Amount)
              (sub64 a1.Balance arg.Amount) (add64 a2.Balance arg.Amount)
      ∧ wraps (-arg.Amount) (neg64 arg.Amount)
      ∧ wraps (a1.Balance - arg.Amount) (sub64 a1.Balance arg.Amount)
      ∧ wraps (a2.Balance + arg.Amount) (add64 a2.Balance arg.Amount)
      ∧ (isInt64 (-arg.Amount) → isInt64 (a1.Balance - arg.Amount) →
          isInt64 (a2.Balance + arg.Amount) →
          (store.callsOf env arg).map Step.call
            <+: TransferTx.stepSequence arg (-arg.Amount)
                  (a1.Balance - arg.Amount) (a2.Balance + arg.Amount))
      ∧ (4 < (store.callsOf env arg).length →
          ((store.callsOf env arg).map Step.reply)[3]? = some (.account a1))
      ∧ (6 < (store.callsOf env arg).length →
          ((store.callsOf env arg).map Step.reply)[5]? = some (.account a2))
      ∧ ((store.callsOf env arg).all Step.ok = true →
          (store.callsOf env arg).map Step.call
            = TransferTx.stepSequence arg (neg64 arg.Amount)
                (sub64 a1.Balance arg.Amount) (add64 a2.Balance arg.Amount)
          ∧ (store.callsOf env arg).map Step.reply
            = [ .transfer (TransferTx.okTransfer arg store.db.data),
                .entry (TransferTx.okFromEntry arg store.db.data),
                .entry (TransferTx.okToEntry arg store.db.data),
                .account a1,
                .account { a1 with Balance := sub64 a1.Balance arg.Amount },
                .account a2,
                .account { a2 with Balance := add64 a2.Balance arg.Amount } ]) := by
  rw [callsOf_eq env store arg hb]
  obtain ⟨a1, a2, hp, h3, h5, hall⟩ := fn_log arg store.db.data env.queryErr default
  refine ⟨a1, a2, hp, wraps_wrap64 _, wraps_wrap64 _, wraps_wrap64 _, ?_, h3, h5, ?_⟩
  · intro hm hn1 hn2
    have e0 : neg64 arg.Amount = -arg.Amount := wrap64_of_isInt64 hm
    have e1 : sub64 a1.Balance arg.Amount = a1.Balance - arg.Amount := wrap64_of_isInt64 hn1
    have e2 : add64 a2.Balance arg.Amount = a2.Balance + arg.Amount := wrap64_of_isInt64 hn2
    rw [e0, e1, e2] at hp
    exact hp
  · intro hok
    have hl := hall hok
    refine ⟨?_, ?_⟩ <;> rw [hl] <;> simp [TransferTx.okLog, TransferTx.stepSequence]

/-- C2 (the code at the failing input). Accounts 1 and 2 hold 100 each; in a
transfer of 10 from 2 to 1 in which every step succeeds, account 2 is locked
and updated first and account 1 second: the first locked read is for `from`,
not for the smaller identifier. -/
theorem TransferTx_locks_source_first :
    accountCalls (exampleStore.callsOf Env.ok ⟨2, 1, 10⟩)
      = [ .GetAccountForUpdate 2, .UpdateAccount ⟨2, 90⟩,
          .GetAccountForUpdate 1, .UpdateAccount ⟨1, 110⟩ ]
    ∧ accountCalls (exampleStore.callsOf Env.ok ⟨2, 1, 10⟩)
      ≠ [ .GetAccountForUpdate 1, .UpdateAccount ⟨1, 110⟩,
          .GetAccountForUpdate 2, .UpdateAccount ⟨2, 90⟩ ]
    ∧ (lockOrder (exampleStore.callsOf Env.ok ⟨2, 1, 10⟩)).head? ≠ some (min 2 1) := by
  decide

/-- The effect of one transfer between two distinct existing accounts in which
nothing fails: no error, the source row debited, the destination row credited,
and both updated rows returned. -/
theorem TransferTx_ok_balances (env : Env) (store : Store) (arg : TransferTxParams)
    (af at' : Account)
    (hb : env.beginErr = none) (hc : env.commitErr = none)
    (hf : ∀ n, n < 7 → env.queryErr n = none)
    (h1 : store.db.data.getAccount arg.FromAccountID = some af)
    (h2 : store.db.data.getAccount arg.ToAccountID = some at')
    (hne : arg.FromAccountID ≠ arg.ToAccountID) :
    (store.TransferTx env arg).2.1 = none
    ∧ (store.TransferTx env arg).2.2.db.data.getAccount arg.FromAccountID
        = some { af with Balance := sub64 af.Balance arg.Amount }
    ∧ (store.TransferTx env arg).2.2.db.data.getAccount arg.ToAccountID
        = some { at' with Balance := add64 at'.Balance arg.Amount }
    ∧ (store.TransferTx env arg).1.FromAccount
        = { af with Balance := sub64 af.Balance arg.Amount }
    ∧ (store.TransferTx env arg).1.ToAccount
        = { at' with Balance := add64 at'.Balance arg.Amount } := by
  rw [TransferTx_ok env store arg af at' hb hc hf h1 h2]
  have hne' : ¬ arg.ToAccountID = arg.FromAccountID := fun h => hne h.symm
  have hidf := getAccount_ID h1
  have hidt := getAccount_ID h2
  simp [TransferTx.okData, TransferTx.okResult, TransferTx.account2, hne', hne,
    getAccount_setBalance, h1, h2, hidf, hidt]

/-- Running two lists of transfers one after the other. -/
theorem transferAll_append (env : Env) (store : Store) (l1 l2 : List TransferTxParams) :
    store.transferAll env (l1 ++ l2) =
      ((store.transferAll env l1).1 ++ ((store.transferAll env l1).2.transferAll env l2).1,
       ((store.transferAll env l1).2.transferAll env l2).2) := by
  induction l1 generalizing store with
  | nil => simp [Store.transferAll]
  | cons x xs ih => simp [Store.transferAll, ih]

/-- A transfer from `a` to `b` followed by one of the same amount from `b` to
`a`, nothing failing, returns no error twice and leaves both rows as they were. -/
theorem transferAll_pair (env : Env) (store : Store) (a b amount : Int) (accA accB : Account)
    (hb : env.beginErr = none) (hc : env.commitErr = none)
    (hf : ∀ n, n < 7 → env.queryErr n = none)
    (hne : a ≠ b)
    (hA : store.db.data.getAccount a = some accA)
    (hB : store.db.data.getAccount b = some accB)
    (hrA : isInt64 accA.Balance) (hrB : isInt64 accB.Balance) :
    (store.transferAll env [⟨a, b, amount⟩, ⟨b, a, amount⟩]).1 = [none, none]
    ∧ (store.transferAll env [⟨a, b, amount⟩, ⟨b, a, amount⟩]).2.db.data.getAccount a = some accA
    ∧ (store.transferAll env [⟨a, b, amount⟩, ⟨b, a, amount⟩]).2.db.data.getAccount b
        = some accB := by
  obtain ⟨e1, gA1, gB1, -, -⟩ :=
    TransferTx_ok_balances env store ⟨a, b, amount⟩ accA accB hb hc hf hA hB hne
  obtain ⟨e2, gB2, gA2, -, -⟩ :=
    TransferTx_ok_balances env (store.TransferTx env ⟨a, b, amount⟩).2.2 ⟨b, a, amount⟩
      _ _ hb hc hf gB1 gA1 (fun h => hne h.symm)
  simp only [Store.transferAll, e1, e2, gA2, gB2, add64_sub64 hrA, sub64_add64 hrB]
  exact ⟨trivial, trivial, trivial⟩

/-- The last two of an even number of alternating transfers. -/
theorem alternating_succ (a b amount : Int) (k : Nat) :
    alternating a b amount (2 * (k + 1))
      = alternating a b amount (2 * k) ++ [⟨a, b, amount⟩, ⟨b, a, amount⟩] := by
  have h0 : (2 * k) % 2 = 0 := by omega
  have h1 : (2 * k + 1) % 2 = 1 := by omega
  unfold alternating
  rw [show 2 * (k + 1) = 2 * k + 1 + 1 by ring, List.range_succ, List.range_succ]
  simp [h0, h1]

/-- C8. For two distinct existing accounts `a` and `b`, every amount and every
`k`: running `2 * k` transfers of that amount one after another, alternately
from `a` to `b` and from `b` to `a`, with nothing failing, returns no error
each time and leaves the stored rows of `a` and of `b`, hence their balances,
as they were at the start. -/
theorem transferAll_alternating_net_zero (env : Env) (store : Store) (a b amount : Int)
    (k : Nat) (accA accB : Account)
    (hb : env.beginErr = none) (hc : env.commitErr = none)
    (hf : ∀ n, n < 7 → env.queryErr n = none)
    (hne : a ≠ b)
    (hA : store.db.data.getAccount a = some accA)
    (hB : store.db.data.getAccount b = some accB)
    (hrA : isInt64 accA.Balance) (hrB : isInt64 accB.Balance) :
    (store.transferAll env (alternating a b amount (2 * k))).1 = List.replicate (2 * k) none
    ∧ (store.transferAll env (alternating a b amount (2 * k))).2.db.data.getAccount a
        = some accA
    ∧ (store.transferAll env (alternating a b amount (2 * k))).2.db.data.getAccount b
        = some accB := by
  induction k with
  | zero => exact ⟨rfl, hA, hB⟩
  | succ k ih =>
    obtain ⟨ihe, ihA, ihB⟩ := ih
    obtain ⟨pe, pA, pB⟩ :=
      transferAll_pair env (store.transferAll env (alternating a b amount (2 * k))).2
        a b amount accA accB hb hc hf hne ihA ihB hrA hrB
    rw [alternating_succ, transferAll_append]
    refine ⟨?_, pA, pB⟩
    simp only [ihe, pe]
    rw [show 2 * (k + 1) = 2 * k + 2 by ring, List.replicate_add]
    rfl

/-- C10 (amended). A transfer from an existing account `a` with stored `int64`
balance `b` to itself, nothing failing, is not rejected: it returns no error,
commits one transfer from `a` to `a` and two entries on `a` (`-amount` and
`amount`), leaves the stored row of `a` (so its balance `b`) as it was, and
returns `FromAccount.Balance = b - amount` but `ToAccount.Balance = b`, with
`-amount` and `b - amount` as Go computes them on `int64` (the mathematical
values whenever those are in range). The two returned snapshots differ for every
`int64` amount other than zero, and coincide for amount zero. -/
theorem TransferTx_same_account (env : Env) (store : Store) (a amount : Int) (acc : Account)
    (hb : env.beginErr = none) (hc : env.commitErr = none)
    (hf : ∀ n, n < 7 → env.queryErr n = none)
    (hA : store.db.data.getAccount a = some acc)
    (hr : isInt64 acc.Balance) :
    (store.TransferTx env ⟨a, a, amount⟩).2.1 = none
    ∧ (store.TransferTx env ⟨a, a, amount⟩).2.2.db.data.transfers
        = store.db.data.transfers ++ [⟨store.db.data.nextTransferID, a, a, amount⟩]
    ∧ (store.TransferTx env ⟨a, a, amount⟩).2.2.db.data.entries
        = store.db.data.entries
            ++ [⟨store.db.data.nextEntryID, a, neg64 amount⟩,
                ⟨store.db.data.nextEntryID + 1, a, amount⟩]
    ∧ wraps (-amount) (neg64 amount)
    ∧ (isInt64 (-amount) → neg64 amount = -amount)
    ∧ (store.TransferTx env ⟨a, a, amount⟩).2.2.db.data.getAccount a = some acc
    ∧ (store.TransferTx env ⟨a, a, amount⟩).1.FromAccount = ⟨a, sub64 acc.Balance amount⟩
    ∧ wraps (acc.Balance - amount) (sub64 acc.Balance amount)
    ∧ (isInt64 (acc.Balance - amount) →
        (store.TransferTx env ⟨a, a, amount⟩).1.FromAccount.Balance = acc.Balance - amount)
    ∧ (store.TransferTx env ⟨a, a, amount⟩).1.ToAccount = ⟨a, acc.Balance⟩
    ∧ (isInt64 amount → amount ≠ 0 →
        (store.TransferTx env ⟨a, a, amount⟩).1.FromAccount
          ≠ (store.TransferTx env ⟨a, a, amount⟩).1.ToAccount)
    ∧ (amount = 0 →
        (store.TransferTx env ⟨a, a, amount⟩).1.FromAccount
          = (store.TransferTx env ⟨a, a, amount⟩).1.ToAccount) := by
  rw [TransferTx_ok env store ⟨a, a, amount⟩ acc acc hb hc hf hA hA]
  have hid := getAccount_ID hA
  have hback := add64_sub64 hr amount
  refine ⟨rfl, ?_, ?_, wraps_wrap64 _, fun h => wrap64_of_isInt64 h, ?_, ?_, wraps_wrap64 _,
    ?_, ?_, ?_, ?_⟩
  · simp [TransferTx.okData, TransferTx.okTransfer]
  · simp [TransferTx.okData, TransferTx.okFromEntry, TransferTx.okToEntry]
  · simp [TransferTx.okData, TransferTx.account2, getAccount_setBalance, hA, hid, hback]
    cases acc
    simp_all
  · simp [TransferTx.okResult, hid]
  · intro h
    simp [TransferTx.okResult, sub64, wrap64_of_isInt64 h]
  · simp [TransferTx.okResult, TransferTx.account2, hid, hback]
  · intro hm h0
    simp [TransferTx.okResult, TransferTx.account2, hid, hback]
    exact sub64_ne_self_of_ne_zero hm h0
  · intro h0
    subst h0
    have e1 : sub64 acc.Balance 0 = acc.Balance := by
      have := wrap64_of_isInt64 hr
      simpa [sub64] using this
    have e2 : add64 acc.Balance 0 = acc.Balance := by
      have := wrap64_of_isInt64 hr
      simpa [add64] using this
    simp [TransferTx.okResult, TransferTx.account2, hid, e1, e2]

/-- C10 (as stated, refuted). Account 1 holds 100; a transfer of amount 0 from
account 1 to itself returns no error and the two returned snapshots of the
account are equal, so they do not disagree. -/
theorem TransferTx_same_account_zero_amount :
    (exampleStore.TransferTx Env.ok ⟨1, 1, 0⟩).2.1 = none
    ∧ (exampleStore.TransferTx Env.ok ⟨1, 1, 0⟩).1.FromAccount = ⟨1, 100⟩
    ∧ (exampleStore.TransferTx Env.ok ⟨1, 1, 0⟩).1.ToAccount = ⟨1, 100⟩
    ∧ ¬ ((exampleStore.TransferTx Env.ok ⟨1, 1, 0⟩).1.FromAccount
          ≠ (exampleStore.TransferTx Env.ok ⟨1, 1, 0⟩).1.ToAccount) := by
  decide

/-- C1 (the code at the failing input). Accounts 1 and 2 hold 100 each; in a
transfer of 10 from 1 to 2 the locked read of account 1 fails with a lock
timeout. No later step is issued, but `TransferTx` returns no error, `Commit` is
called instead of `Rollback`, and the transfer and both entries are committed
with both balances unchanged. -/
theorem TransferTx_locked_read_error_swallowed :
    (exampleStore.TransferTx (Env.failAt 3 errLockTimeout) ⟨1, 2, 10⟩).2.1 = none
    ∧ (exampleStore.callsOf (Env.failAt 3 errLockTimeout) ⟨1, 2, 10⟩).getLast?
        = some ⟨.GetAccountForUpdate 1, .error errLockTimeout⟩
    ∧ (exampleStore.TransferTx (Env.failAt 3 errLockTimeout) ⟨1, 2, 10⟩).2.2.db.ops
        = [.Begin, .Commit]
    ∧ (exampleStore.TransferTx (Env.failAt 3 errLockTimeout) ⟨1, 2, 10⟩).2.2.db.data.transfers
        = [⟨1, 1, 2, 10⟩]
    ∧ (exampleStore.TransferTx (Env.failAt 3 errLockTimeout) ⟨1, 2, 10⟩).2.2.db.data.entries
        = [⟨1, 1, -10⟩, ⟨2, 2, 10⟩]
    ∧ (exampleStore.TransferTx (Env.failAt 3 errLockTimeout) ⟨1, 2, 10⟩).2.2.db.data.accounts
        = [⟨1, 100⟩, ⟨2, 100⟩] := by
  decide

/-! ## The theorems at concrete inputs -/

/-- C5 at a concrete input: the work function fails with a lock timeout and the
rollback fails with a lost connection. -/
theorem execTx_error_path_witness :
    (Env.rollbackFails errBadConn).beginErr = none
    ∧ failingWork errLockTimeout
          (New ⟨exampleStore.db.data, (Env.rollbackFails errBadConn).queryErr, []⟩) 0
        = (some errLockTimeout,
            New ⟨exampleStore.db.data, (Env.rollbackFails errBadConn).queryErr, []⟩, 0)
    ∧ (exampleStore.execTx (Env.rollbackFails errBadConn) (failingWork errLockTimeout) 0).2.1.db.ops
        = [TxOp.Begin, TxOp.Rollback]
    ∧ (exampleStore.execTx (Env.rollbackFails errBadConn) (failingWork errLockTimeout) 0).1
        = some ⟨"tx err: pq: canceling statement due to lock timeout, rb err: driver: bad connection"⟩ :=
  ⟨rfl, rfl,
    (execTx_error_path (Env.rollbackFails errBadConn) exampleStore (failingWork errLockTimeout)
      0 0 errLockTimeout _ rfl rfl).1,
    ((execTx_error_path (Env.rollbackFails errBadConn) exampleStore (failingWork errLockTimeout)
      0 0 errLockTimeout _ rfl rfl).2.2.2.2 errBadConn rfl).1⟩

/-- C6 at concrete inputs: a work function that succeeds while the commit fails,
and a transaction that cannot be begun. -/
theorem execTx_success_path_witness :
    ((Env.commitFails errBadConn).beginErr = none
      ∧ countingWork (New ⟨exampleStore.db.data, (Env.commitFails errBadConn).queryErr, []⟩) 0
          = (none, New ⟨exampleStore.db.data, (Env.commitFails errBadConn).queryErr, []⟩, 1)
      ∧ (exampleStore.execTx (Env.commitFails errBadConn) countingWork 0).2.1.db.ops
          = [TxOp.Begin, TxOp.Commit]
      ∧ (exampleStore.execTx (Env.commitFails errBadConn) countingWork 0).1 = some errBadConn)
    ∧ ((Env.beginFails errBadConn).beginErr = some errBadConn
      ∧ exampleStore.execTx (Env.beginFails errBadConn) countingWork 0
          = (some errBadConn, ⟨⟨exampleDB, [TxOp.Begin], []⟩⟩, 0)) :=
  ⟨⟨rfl, rfl,
      ((execTx_success_path (Env.commitFails errBadConn) exampleStore countingWork 0).1
        rfl _ _ rfl).1,
      ((execTx_success_path (Env.commitFails errBadConn) exampleStore countingWork 0).1
        rfl _ _ rfl).2.2.2.1⟩,
    ⟨rfl,
      (execTx_success_path (Env.beginFails errBadConn) exampleStore countingWork 0).2
        errBadConn rfl⟩⟩

/-- C4 at a concrete input: the second entry cannot be created. -/
theorem TransferTx_error_atomic_witness :
    (exampleStore.TransferTx (Env.failAt 2 errBadConn) ⟨1, 2, 10⟩).2.1 = some errBadConn
    ∧ (exampleStore.TransferTx (Env.failAt 2 errBadConn) ⟨1, 2, 10⟩).2.2.db.data = exampleDB :=
  ⟨by decide,
    (TransferTx_error_atomic (Env.failAt 2 errBadConn) exampleStore ⟨1, 2, 10⟩ errBadConn
      (by decide)).1⟩

/-- C7 at a concrete input: 10 from account 1 to account 2. -/
theorem TransferTx_records_witness :
    (exampleStore.TransferTx Env.ok ⟨1, 2, 10⟩).2.1 = none
    ∧ (exampleStore.TransferTx Env.ok ⟨1, 2, 10⟩).1.FromEntry.Amount = -10
    ∧ (exampleStore.TransferTx Env.ok ⟨1, 2, 10⟩).2.2.db.data.transfers
        = [] ++ [(exampleStore.TransferTx Env.ok ⟨1, 2, 10⟩).1.Transfer] :=
  ⟨by decide,
    (TransferTx_records Env.ok exampleStore ⟨1, 2, 10⟩ (by decide)).2.2.2.2.2.1
      (by decide) (by decide),
    (TransferTx_records Env.ok exampleStore ⟨1, 2, 10⟩ (by decide)).2.2.2.2.2.2.2.2.1⟩

/-- C9 at a concrete input: 10 from account 1 to account 2, nothing failing. -/
theorem TransferTx_step_sequence_witness :
    Env.ok.beginErr = none
    ∧ ∃ a1 a2 : Account,
        (exampleStore.callsOf Env.ok ⟨1, 2, 10⟩).map Step.call
          <+: TransferTx.stepSequence ⟨1, 2, 10⟩ (neg64 10) (sub64 a1.Balance 10)
                (add64 a2.Balance 10)
        ∧ wraps (-10) (neg64 10)
        ∧ wraps (a1.Balance - 10) (sub64 a1.Balance 10)
        ∧ wraps (a2.Balance + 10) (add64 a2.Balance 10)
        ∧ (isInt64 (-10) → isInt64 (a1.Balance - 10) → isInt64 (a2.Balance + 10) →
            (exampleStore.callsOf Env.ok ⟨1, 2, 10⟩).map Step.call
              <+: TransferTx.stepSequence ⟨1, 2, 10⟩ (-10) (a1.Balance - 10) (a2.Balance + 10))
        ∧ (4 < (exampleStore.callsOf Env.ok ⟨1, 2, 10⟩).length →
            ((exampleStore.callsOf Env.ok ⟨1, 2, 10⟩).map Step.reply)[3]? = some (.account a1))
        ∧ (6 < (exampleStore.callsOf Env.ok ⟨1, 2, 10⟩).length →
            ((exampleStore.callsOf Env.ok ⟨1, 2, 10⟩).map Step.reply)[5]? = some (.account a2))
        ∧ ((exampleStore.callsOf Env.ok ⟨1, 2, 10⟩).all Step.ok = true →
            (exampleStore.callsOf Env.ok ⟨1, 2, 10⟩).map Step.call
              = TransferTx.stepSequence ⟨1, 2, 10⟩ (neg64 10) (sub64 a1.Balance 10)
                  (add64 a2.Balance 10)
            ∧ (exampleStore.callsOf Env.ok ⟨1, 2, 10⟩).map Step.reply
              = [ .transfer (TransferTx.okTransfer ⟨1, 2, 10⟩ exampleStore.db.data),
                  .entry (TransferTx.okFromEntry ⟨1, 2, 10⟩ exampleStore.db.data),
                  .entry (TransferTx.okToEntry ⟨1, 2, 10⟩ exampleStore.db.data),
                  .account a1,
                  .account { a1 with Balance := sub64 a1.Balance 10 },
                  .account a2,
                  .account { a2 with Balance := add64 a2.Balance 10 } ]) :=
  ⟨rfl, TransferTx_step_sequence Env.ok exampleStore ⟨1, 2, 10⟩ rfl⟩

/-- C8 at a concrete input: 10 transfers of 10, 5 in each direction, between two
accounts that hold 100 each. -/
theorem transferAll_alternating_net_zero_witness :
    Env.ok.beginErr = none ∧ Env.ok.commitErr = none
    ∧ (∀ n, n < 7 → Env.ok.queryErr n = none)
    ∧ (1 : Int) ≠ 2
    ∧ exampleStore.db.data.getAccount 1 = some ⟨1, 100⟩
    ∧ exampleStore.db.data.getAccount 2 = some ⟨2, 100⟩
    ∧ isInt64 100
    ∧ (exampleStore.transferAll Env.ok (alternating 1 2 10 (2 * 5))).1 = List.replicate (2 * 5) none
    ∧ (exampleStore.transferAll Env.ok (alternating 1 2 10 (2 * 5))).2.db.data.getAccount 1
        = some ⟨1, 100⟩
    ∧ (exampleStore.transferAll Env.ok (alternating 1 2 10 (2 * 5))).2.db.data.getAccount 2
        = some ⟨2, 100⟩ :=
  ⟨rfl, rfl, fun _ _ => rfl, by decide, by decide, by decide, by decide,
    transferAll_alternating_net_zero Env.ok exampleStore 1 2 10 5 ⟨1, 100⟩ ⟨2, 100⟩ rfl rfl
      (fun _ _ => rfl) (by decide) (by decide) (by decide) (by decide) (by decide)⟩

/-- C10 (amended) at a concrete input: 10 from account 1, which holds 100, to
itself. -/
theorem TransferTx_same_account_witness :
    Env.ok.beginErr = none ∧ Env.ok.commitErr = none
    ∧ (∀ n, n < 7 → Env.ok.queryErr n = none)
    ∧ exampleStore.db.data.getAccount 1 = some ⟨1, 100⟩
    ∧ isInt64 100
    ∧ (exampleStore.TransferTx Env.ok ⟨1, 1, 10⟩).2.2.db.data.getAccount 1 = some ⟨1, 100⟩
    ∧ (exampleStore.TransferTx Env.ok ⟨1, 1, 10⟩).1.FromAccount = ⟨1, sub64 100 10⟩
    ∧ (exampleStore.TransferTx Env.ok ⟨1, 1, 10⟩).1.FromAccount.Balance = 100 - 10
    ∧ (exampleStore.TransferTx Env.ok ⟨1, 1, 10⟩).1.ToAccount = ⟨1, 100⟩
    ∧ (exampleStore.TransferTx Env.ok ⟨1, 1, 10⟩).1.FromAccount
        ≠ (exampleStore.TransferTx Env.ok ⟨1, 1, 10⟩).1.ToAccount :=
  ⟨rfl, rfl, fun _ _ => rfl, by decide, by decide,
    (TransferTx_same_account Env.ok exampleStore 1 10 ⟨1, 100⟩ rfl rfl (fun _ _ => rfl)
      (by decide) (by decide)).2.2.2.2.2.1,
    (TransferTx_same_account Env.ok exampleStore 1 10 ⟨1, 100⟩ rfl rfl (fun _ _ => rfl)
      (by decide) (by decide)).2.2.2.2.2.2.1,
    (TransferTx_same_account Env.ok exampleStore 1 10 ⟨1, 100⟩ rfl rfl (fun _ _ => rfl)
      (by decide) (by decide)).2.2.2.2.2.2.2.2.1 (by decide),
    (TransferTx_same_account Env.ok exampleStore 1 10 ⟨1, 100⟩ rfl rfl (fun _ _ => rfl)
      (by decide) (by decide)).2.2.2.2.2.2.2.2.2.1,
    (TransferTx_same_account Env.ok exampleStore 1 10 ⟨1, 100⟩ rfl rfl (fun _ _ => rfl)
      (by decide) (by decide)).2.2.2.2.2.2.2.2.2.2.1 (by decide) (by decide)⟩

end db
